import Mathlib

/-!
# Verification of the MCP server core (Rust) against its specification

This file gives a shallow embedding, in Lean 4, of the parts of the
`mcp-server` Rust repository that the verified claims are about:

* the JSON value model and the JSON-RPC message codec (`src/protocol/mod.rs`),
* request/notification validation (`src/protocol/validation.rs`),
* the error taxonomy and its JSON-RPC code mapping (`src/error.rs`),
* the resource manager (`src/server/features/resources.rs`),
* the tool manager, calculator handler, process-wide handler registry and
  config-driven discovery (`src/server/features/tools.rs`),
* the prompt manager (`src/server/features/prompts.rs`),
* the protocol dispatcher (`src/protocol/handler.rs`),
* the HTTP DELETE route and the session store
  (`src/transport/http.rs`, `src/transport/session.rs`).

Rust `HashMap`s are modelled as association lists (iteration order in Rust is
unspecified; every ordered statement proved below is about data that the code
sorts explicitly, or is stated up to permutation).  Rust `f64` JSON numbers are
modelled as integers: every number occurring in the claims is integral and no
claim exercises non-integral arithmetic.  `async` and locking are erased:
every operation is a pure state-passing function.
-/

namespace Mcp

/-- JSON values (`serde_json::Value`).  Numbers are restricted to integers;
objects are field lists in insertion order. -/
inductive Json where
  | null : Json
  | bool (b : Bool) : Json
  | num (n : Int) : Json
  | str (s : String) : Json
  | arr (elems : List Json) : Json
  | obj (fields : List (String × Json)) : Json
  deriving Repr

namespace Json

/-- Field lookup on an object (`Value::get`); `none` on non-objects. -/
def getField : Json → String → Option Json
  | obj fields, key => fields.lookup key
  | _, _ => none

/-- `Value::as_str`. -/
def asStr : Json → Option String
  | str s => some s
  | _ => none

/-- `Value::is_object`. -/
def isObj : Json → Bool
  | obj _ => true
  | _ => false

/-- `Value::as_f64` on the integer-restricted number model. -/
def asNum : Json → Option Int
  | num n => some n
  | _ => none

/-- `Value::is_number`. -/
def isNum : Json → Bool
  | num _ => true
  | _ => false

/-- `Value::is_string`. -/
def isStr : Json → Bool
  | str _ => true
  | _ => false

/-- Structural equality of JSON values (the `PartialEq` of `serde_json::Value`);
the container cases recurse by re-wrapping the tails, which keeps the
recursion structural. -/
def beq (v w : Json) : Bool :=
  match v, w with
  | .str s₁, .str s₂ => s₁ == s₂
  | .num n₁, .num n₂ => n₁ == n₂
  | .bool b₁, .bool b₂ => b₁ == b₂
  | .null, .null => true
  | .arr [], .arr [] => true
  | .arr (x :: xs), .arr (y :: ys) => beq x y && beq (.arr xs) (.arr ys)
  | .obj [], .obj [] => true
  | .obj ((k₁, x) :: fs₁), .obj ((k₂, y) :: fs₂) =>
      k₁ == k₂ && beq x y && beq (.obj fs₁) (.obj fs₂)
  | _, _ => false

instance : BEq Json := ⟨beq⟩

end Json

/-- The error taxonomy of `McpError` (src/error.rs); the variants not involved
in any claim (`Transport`, `Io`, ...) are omitted, no modelled operation
produces them. -/
inductive McpError where
  | parseError (msg : String)
  | invalidRequest (msg : String)
  | methodNotFound (msg : String)
  | invalidParams (msg : String)
  | internalError (msg : String)
  | protocol (msg : String)
  | resource (msg : String)
  | tool (msg : String)
  | prompt (msg : String)
  deriving Repr, DecidableEq

namespace McpError

/-- `McpError::method_not_found` (wraps the method in the standard text). -/
def method_not_found (m : String) : McpError :=
  methodNotFound ("Method '" ++ m ++ "' not found")

/-- `McpError::to_json_rpc_code`. -/
def to_json_rpc_code : McpError → Int
  | parseError _ => -32700
  | invalidRequest _ => -32600
  | methodNotFound _ => -32601
  | invalidParams _ => -32602
  | internalError _ => -32603
  | _ => -32603

/-- The `Display` rendering produced by `thiserror` (src/error.rs). -/
def render : McpError → String
  | parseError m => "Parse error: " ++ m
  | invalidRequest m => "Invalid request: " ++ m
  | methodNotFound m => "Method not found: " ++ m
  | invalidParams m => "Invalid params: " ++ m
  | internalError m => "Internal error: " ++ m
  | protocol m => "Protocol error: " ++ m
  | resource m => "Resource error: " ++ m
  | tool m => "Tool error: " ++ m
  | prompt m => "Prompt error: " ++ m

end McpError

/-- `JsonRpcError` (src/protocol/mod.rs). -/
structure JsonRpcError where
  code : Int
  message : String
  data : Option Json
  deriving Repr

/-- `From<McpError> for JsonRpcError`. -/
def McpError.toJsonRpcError (e : McpError) : JsonRpcError :=
  { code := e.to_json_rpc_code, message := e.render, data := none }

/-- `JsonRpcRequest` (src/protocol/mod.rs); `id` is `RequestId = Value`. -/
structure JsonRpcRequest where
  jsonrpc : String
  id : Json
  method : String
  params : Option Json
  deriving Repr

/-- `JsonRpcNotification`. -/
structure JsonRpcNotification where
  jsonrpc : String
  method : String
  params : Option Json
  deriving Repr

/-- `JsonRpcResponse`. -/
structure JsonRpcResponse where
  jsonrpc : String
  id : Json
  result : Option Json
  error : Option JsonRpcError
  deriving Repr

/-- `AnyJsonRpcMessage` (an untagged union; a batch is a list of raw values). -/
inductive AnyJsonRpcMessage where
  | request (r : JsonRpcRequest)
  | notification (n : JsonRpcNotification)
  | response (r : JsonRpcResponse)
  | batch (items : List Json)
  deriving Repr

/-- `JSONRPC_VERSION`. -/
def JSONRPC_VERSION : String := "2.0"

/-- `PROTOCOL_VERSION`. -/
def PROTOCOL_VERSION : String := "2025-03-26"

/-- `JsonRpcResponse::success`. -/
def JsonRpcResponse.success (id : Json) (result : Json) : JsonRpcResponse :=
  { jsonrpc := JSONRPC_VERSION, id := id, result := some result, error := none }

/-- `JsonRpcResponse::error`. -/
def JsonRpcResponse.mkError (id : Json) (e : JsonRpcError) : JsonRpcResponse :=
  { jsonrpc := JSONRPC_VERSION, id := id, result := none, error := some e }

/-! ## Validation (src/protocol/validation.rs) -/

/-- `validate_request`. -/
def validateRequest (r : JsonRpcRequest) : Except McpError Unit :=
  if r.jsonrpc ≠ JSONRPC_VERSION then
    .error (.invalidRequest ("Invalid JSON-RPC version: expected '2.0', got '" ++ r.jsonrpc ++ "'"))
  else if r.method.isEmpty then
    .error (.invalidRequest "Method name cannot be empty")
  else
    match r.id with
    | .null => .error (.invalidRequest "Request ID must not be null")
    | .str s => if s.isEmpty then .error (.invalidRequest "Request ID cannot be empty string") else .ok ()
    | _ => .ok ()

/-- `validate_notification`. -/
def validateNotification (n : JsonRpcNotification) : Except McpError Unit :=
  if n.jsonrpc ≠ JSONRPC_VERSION then
    .error (.invalidRequest ("Invalid JSON-RPC version: expected '2.0', got '" ++ n.jsonrpc ++ "'"))
  else if n.method.isEmpty then
    .error (.invalidRequest "Method name cannot be empty")
  else
    .ok ()

/-- `validate_response`. -/
def validateResponse (r : JsonRpcResponse) : Except McpError Unit :=
  if r.jsonrpc ≠ JSONRPC_VERSION then
    .error (.invalidRequest ("Invalid JSON-RPC version: expected '2.0', got '" ++ r.jsonrpc ++ "'"))
  else
    match r.result, r.error with
    | some _, some _ => .error (.invalidRequest "Response cannot have both result and error")
    | none, none => .error (.invalidRequest "Response must have either result or error")
    | _, _ => .ok ()

/-- The approved method-name prefixes of `validate_method_name`. -/
def validPrefixes : List String :=
  ["initialize", "ping", "notifications/", "resources/", "prompts/",
   "tools/", "sampling/", "logging/", "completion/", "roots/"]

/-- `str::starts_with`, computed on the underlying character list (the
built-in `String.startsWith` does not reduce inside the kernel). -/
def strStartsWith (s p : String) : Bool :=
  p.data.isPrefixOf s.data

/-- `validate_method_name`. -/
def validateMethodName (method : String) : Except McpError Unit :=
  if method.isEmpty then
    .error (.invalidRequest "Method name cannot be empty")
  else if validPrefixes.any (fun p => strStartsWith method p) then
    .ok ()
  else
    .error (.method_not_found method)

/-! ## Message codec (src/protocol/mod.rs, serde derive semantics)

`AnyJsonRpcMessage` is `#[serde(untagged)]`: serialization writes the payload
of the active variant, parsing tries the variants in declaration order
(request, notification, response, batch) against the same value.  An
`Option<_>` field is skipped on serialization when `None`
(`skip_serializing_if = "Option::is_none"`) and parses to `None` both when
the key is absent and when its value is JSON `null`.  Structs are parsed from
JSON objects, unknown keys are ignored.  The textual layer
(`serde_json::to_string` / `from_str`) is a faithful bijection between JSON
text and the value tree and is elided: the codec is modelled value-to-value. -/

/-- Serialize an optional field: absent when `none` (`skip_serializing_if`). -/
def optField (key : String) : Option Json → List (String × Json)
  | none => []
  | some v => [(key, v)]

/-- Parse an `Option<Value>` field from an object's fields: absent or JSON
`null` give `none`. -/
def parseOptField (fields : List (String × Json)) (key : String) : Option Json :=
  match fields.lookup key with
  | none => none
  | some .null => none
  | some v => some v

/-- Parse a required `String` field. -/
def parseStrField (fields : List (String × Json)) (key : String) : Option String :=
  match fields.lookup key with
  | some (.str s) => some s
  | _ => none

/-- Serialization of `JsonRpcRequest` (serde derive). -/
def serializeRequest (r : JsonRpcRequest) : Json :=
  .obj ([("jsonrpc", .str r.jsonrpc), ("id", r.id), ("method", .str r.method)]
        ++ optField "params" r.params)

/-- Serialization of `JsonRpcNotification`. -/
def serializeNotification (n : JsonRpcNotification) : Json :=
  .obj ([("jsonrpc", .str n.jsonrpc), ("method", .str n.method)]
        ++ optField "params" n.params)

/-- Serialization of `JsonRpcError`. -/
def serializeError (e : JsonRpcError) : Json :=
  .obj ([("code", .num e.code), ("message", .str e.message)]
        ++ optField "data" e.data)

/-- Serialization of `JsonRpcResponse`. -/
def serializeResponse (r : JsonRpcResponse) : Json :=
  .obj ([("jsonrpc", .str r.jsonrpc), ("id", r.id)]
        ++ optField "result" r.result
        ++ (match r.error with
            | none => []
            | some e => [("error", serializeError e)]))

/-- `serialize_message` (src/protocol/mod.rs), at the JSON-value level. -/
def serialize_message : AnyJsonRpcMessage → Json
  | .request r => serializeRequest r
  | .notification n => serializeNotification n
  | .response r => serializeResponse r
  | .batch items => .arr items

/-- Parse a `JsonRpcRequest` from a JSON object (serde derive). -/
def parseRequest : Json → Option JsonRpcRequest
  | .obj fields => do
      let jsonrpc ← parseStrField fields "jsonrpc"
      let id ← fields.lookup "id"
      let method ← parseStrField fields "method"
      some { jsonrpc, id, method, params := parseOptField fields "params" }
  | _ => none

/-- Parse a `JsonRpcNotification` from a JSON object.  The derive rejects a
value carrying an `id` key only through the untagged ordering (requests are
tried first), not here. -/
def parseNotification : Json → Option JsonRpcNotification
  | .obj fields => do
      let jsonrpc ← parseStrField fields "jsonrpc"
      let method ← parseStrField fields "method"
      some { jsonrpc, method, params := parseOptField fields "params" }
  | _ => none

/-- Parse a `JsonRpcError`. -/
def parseError : Json → Option JsonRpcError
  | .obj fields => do
      let code ← match fields.lookup "code" with
        | some (.num n) => some n
        | _ => none
      let message ← parseStrField fields "message"
      some { code, message, data := parseOptField fields "data" }
  | _ => none

/-- Parse a `JsonRpcResponse`. -/
def parseResponse : Json → Option JsonRpcResponse
  | .obj fields => do
      let jsonrpc ← parseStrField fields "jsonrpc"
      let id ← fields.lookup "id"
      let error ← match fields.lookup "error" with
        | none => some none
        | some .null => some none
        | some v => (parseError v).map some
      some { jsonrpc, id, result := parseOptField fields "result", error }
  | _ => none

/-- `parse_message` (src/protocol/mod.rs): untagged deserialization of
`AnyJsonRpcMessage`, trying the variants in declaration order. -/
def parse_message (j : Json) : Except McpError AnyJsonRpcMessage :=
  match parseRequest j with
  | some r => .ok (.request r)
  | none =>
    match parseNotification j with
    | some n => .ok (.notification n)
    | none =>
      match parseResponse j with
      | some r => .ok (.response r)
      | none =>
        match j with
        | .arr items => .ok (.batch items)
        | _ => .error (.parseError "data did not match any variant of untagged enum AnyJsonRpcMessage")

/-! ## Domain data model (src/protocol/messages.rs)

`Annotations` and `ToolAnnotations` carry an `f64` priority and are never
inspected by any modelled operation; they are held as raw JSON values. -/

/-- `Resource`. -/
structure Resource where
  uri : String
  name : String
  description : Option String
  mime_type : Option String
  annotations : Option Json
  size : Option Nat
  deriving Repr

/-- `ResourceTemplate`. -/
structure ResourceTemplate where
  uri_template : String
  name : String
  description : Option String
  mime_type : Option String
  annotations : Option Json
  deriving Repr

/-- `ResourceContents` (tagged by `type`, variants `text` and `blob`). -/
inductive ResourceContents where
  | text (uri : String) (mime_type : Option String) (text : String)
  | blob (uri : String) (mime_type : Option String) (blob : String)
  deriving Repr

/-- `ToolInputSchema`; `properties` is a `HashMap<String, Value>` in the
source, modelled as a field list. -/
structure ToolInputSchema where
  schema_type : String
  properties : Option (List (String × Json))
  required : Option (List String)
  deriving Repr

/-- `Tool`. -/
structure Tool where
  name : String
  description : Option String
  input_schema : ToolInputSchema
  annotations : Option Json
  deriving Repr

/-- `Content` (tagged by `type`). -/
inductive Content where
  | text (text : String) (annotations : Option Json)
  | image (data : String) (mime_type : String) (annotations : Option Json)
  | audio (data : String) (mime_type : String) (annotations : Option Json)
  | resource (resource : ResourceContents) (annotations : Option Json)
  deriving Repr

/-- `PromptArgument`. -/
structure PromptArgument where
  name : String
  description : Option String
  required : Option Bool
  deriving Repr

/-- `Prompt`. -/
structure Prompt where
  name : String
  description : Option String
  arguments : Option (List PromptArgument)
  deriving Repr

/-- `PaginationParams`. -/
structure PaginationParams where
  cursor : Option String
  deriving Repr, DecidableEq

/-- `PaginationResult`. -/
structure PaginationResult where
  next_cursor : Option String
  deriving Repr, DecidableEq

/-- Serialize an optional string field. -/
def optStrField (key : String) : Option String → List (String × Json)
  | none => []
  | some s => [(key, .str s)]

/-- serde serialization of `Resource`. -/
def serializeResource (r : Resource) : Json :=
  .obj ([("uri", .str r.uri), ("name", .str r.name)]
        ++ optStrField "description" r.description
        ++ optStrField "mimeType" r.mime_type
        ++ optField "annotations" r.annotations
        ++ (match r.size with | none => [] | some n => [("size", .num n)]))

/-- serde serialization of `ResourceTemplate`. -/
def serializeResourceTemplate (t : ResourceTemplate) : Json :=
  .obj ([("uriTemplate", .str t.uri_template), ("name", .str t.name)]
        ++ optStrField "description" t.description
        ++ optStrField "mimeType" t.mime_type
        ++ optField "annotations" t.annotations)

/-- serde serialization of `ResourceContents`. -/
def serializeResourceContents : ResourceContents → Json
  | .text uri mt text =>
      .obj ([("type", .str "text"), ("uri", .str uri)] ++ optStrField "mimeType" mt
            ++ [("text", .str text)])
  | .blob uri mt blob =>
      .obj ([("type", .str "blob"), ("uri", .str uri)] ++ optStrField "mimeType" mt
            ++ [("blob", .str blob)])

/-- serde serialization of `ToolInputSchema`. -/
def serializeToolInputSchema (s : ToolInputSchema) : Json :=
  .obj ([("type", .str s.schema_type)]
        ++ (match s.properties with | none => [] | some ps => [("properties", .obj ps)])
        ++ (match s.required with
            | none => []
            | some rs => [("required", .arr (rs.map Json.str))]))

/-- serde serialization of `Tool`. -/
def serializeTool (t : Tool) : Json :=
  .obj ([("name", .str t.name)]
        ++ optStrField "description" t.description
        ++ [("inputSchema", serializeToolInputSchema t.input_schema)]
        ++ optField "annotations" t.annotations)

/-- serde serialization of `Content`. -/
def serializeContent : Content → Json
  | .text text ann => .obj ([("type", .str "text"), ("text", .str text)] ++ optField "annotations" ann)
  | .image data mt ann =>
      .obj ([("type", .str "image"), ("data", .str data), ("mimeType", .str mt)]
            ++ optField "annotations" ann)
  | .audio data mt ann =>
      .obj ([("type", .str "audio"), ("data", .str data), ("mimeType", .str mt)]
            ++ optField "annotations" ann)
  | .resource rc ann =>
      .obj ([("type", .str "resource"), ("resource", serializeResourceContents rc)]
            ++ optField "annotations" ann)

/-- serde serialization of `PromptArgument`. -/
def serializePromptArgument (a : PromptArgument) : Json :=
  .obj ([("name", .str a.name)]
        ++ optStrField "description" a.description
        ++ (match a.required with | none => [] | some b => [("required", .bool b)]))

/-- serde serialization of `Prompt`. -/
def serializePrompt (p : Prompt) : Json :=
  .obj ([("name", .str p.name)]
        ++ optStrField "description" p.description
        ++ (match p.arguments with
            | none => []
            | some args => [("arguments", .arr (args.map serializePromptArgument))]))

/-- `PromptMessage` (`role` is the lowercase `Role` tag). -/
structure PromptMessage where
  role : String
  content : Content
  deriving Repr

/-- serde serialization of `PromptMessage`. -/
def serializePromptMessage (m : PromptMessage) : Json :=
  .obj [("role", .str m.role), ("content", serializeContent m.content)]

/-- `PromptResult` (src/server/features/prompts.rs). -/
structure PromptResult where
  messages : List PromptMessage
  description : Option String
  deriving Repr

/-! ## Association-list operations standing in for `HashMap` -/

/-- `HashMap::insert`: replace in place or append. -/
def assocInsert (m : List (String × α)) (k : String) (v : α) : List (String × α) :=
  match m with
  | [] => [(k, v)]
  | (k', v') :: rest => if k' == k then (k, v) :: rest else (k', v') :: assocInsert rest k v

/-- `HashMap::remove` (by key). -/
def assocRemove (m : List (String × α)) (k : String) : List (String × α) :=
  m.filter (fun kv => kv.1 ≠ k)

/-! ## Pagination (the identical `apply_pagination` bodies in
resources.rs, tools.rs and prompts.rs) -/

/-- Digit-string parse standing in for `str::parse::<usize>()` (the cursors
the code produces are decimal digit strings). -/
def parseUsize (s : String) : Option Nat :=
  if s.data ≠ [] ∧ s.data.all Char.isDigit then
    some (s.data.foldl (fun acc c => acc * 10 + (c.toNat - 48)) 0)
  else
    none

/-- `apply_pagination`: page of at most 50 items starting at the cursor
index; the `next_cursor` comparison happens against the length of the vector
*after* `drain` removed the page, exactly as in the source. -/
def applyPagination (items : List α) (params : PaginationParams) :
    List α × PaginationResult :=
  let start := (params.cursor.bind parseUsize).getD 0
  let pageSize := 50
  let endIdx := min (start + pageSize) items.length
  if start < items.length then
    let page := (items.drop start).take (endIdx - start)
    let remaining := items.length - (endIdx - start)
    (page, ⟨if endIdx < remaining then some (toString endIdx) else none⟩)
  else
    ([], ⟨if endIdx < items.length then some (toString endIdx) else none⟩)

/-- Driving a list operation through successive cursors: call with the page
cursor, follow `next_cursor` until it is `none`, concatenate the pages (the
"concatenating successive pages" protocol of §8 of the spec).  `fuel` bounds
the recursion; `items.length + 1` rounds always suffice. -/
def collectPages (fuel : Nat) (items : List α) (cursor : Option String) : List α :=
  match fuel with
  | 0 => []
  | fuel + 1 =>
    let (page, res) := applyPagination items ⟨cursor⟩
    match res.next_cursor with
    | none => page
    | some c => page ++ collectPages fuel items (some c)

/-! ## Resource manager (src/server/features/resources.rs) -/

/-- A resource provider: the dynamic `ResourceProvider` trait object, with
each async method modelled as a pure function.  `listed` is the outcome of
`list_resources(None)`; the subscribe/unsubscribe hooks have no modelled
effect beyond being invoked, which the manager operations report as events. -/
structure ResourceProvider where
  name : String
  canHandle : String → Bool
  listed : Except McpError (List Resource)
  readRes : String → Except McpError (List ResourceContents)

/-- A provider hook invocation (`provider.subscribe(uri)` /
`provider.unsubscribe(uri)`). -/
inductive HookEvent where
  | sub (provider : String) (uri : String)
  | unsub (provider : String) (uri : String)
  deriving Repr, DecidableEq

/-- The `ResourceManager` state: registries are `HashMap`s, modelled as
association lists; `providers` keeps the map's value iteration order as the
list order. -/
structure ResourceMgrState where
  resources : List (String × Resource)
  templates : List (String × ResourceTemplate)
  providers : List ResourceProvider
  subscriptions : List (String × List String)
  enabled : Bool

/-- Ascending URI comparison used by `list_resources`'s `sort_by`. -/
def resourceLe (a b : Resource) : Prop := a.uri ≤ b.uri

instance : DecidableRel resourceLe := fun a b => inferInstanceAs (Decidable (a.uri ≤ b.uri))

instance : IsTotal Resource resourceLe := ⟨fun a b => le_total a.uri b.uri⟩

instance : IsTrans Resource resourceLe := ⟨fun _ _ _ h h' => le_trans h h'⟩

namespace ResourceMgrState

/-- `ResourceManager::register_resource`. -/
def registerResource (st : ResourceMgrState) (r : Resource) :
    Except McpError ResourceMgrState :=
  if !st.enabled then .error (.resource "Resource feature is disabled")
  else .ok { st with resources := assocInsert st.resources r.uri r }

/-- `ResourceManager::list_resources`: static registry values, then every
provider's listing (failures are logged and skipped), sorted ascending by
URI (`sort_by` is a stable sort, modelled by insertion sort), then paginated
when parameters are present.  There is no deduplication step. -/
def listResources (st : ResourceMgrState) (pagination : Option PaginationParams) :
    Except McpError (List Resource × PaginationResult) :=
  if !st.enabled then .error (.resource "Resource feature is disabled")
  else
    let allResources := st.resources.map (·.2)
      ++ (st.providers.map (fun p => p.listed.toOption.getD [])).flatten
    let sorted := allResources.insertionSort resourceLe
    match pagination with
    | some params => .ok (applyPagination sorted params)
    | none => .ok (sorted, ⟨none⟩)

/-- Ascending URI-template comparison used by `list_templates`. -/
def listTemplates (st : ResourceMgrState) (pagination : Option PaginationParams) :
    Except McpError (List ResourceTemplate × PaginationResult) :=
  if !st.enabled then .error (.resource "Resource feature is disabled")
  else
    let sorted := (st.templates.map (·.2)).insertionSort
      (fun a b => a.uri_template ≤ b.uri_template)
    match pagination with
    | some params => .ok (applyPagination sorted params)
    | none => .ok (sorted, ⟨none⟩)

/-- `ResourceManager::read_resource`: the first provider whose `can_handle`
accepts the URI reads it (the registered-resource pre-check performs the
same provider scan and is absorbed by it); otherwise a Resource error. -/
def readResource (st : ResourceMgrState) (uri : String) :
    Except McpError (List ResourceContents) :=
  if !st.enabled then .error (.resource "Resource feature is disabled")
  else
    match st.providers.find? (fun p => p.canHandle uri) with
    | some p => p.readRes uri
    | none => .error (.resource ("No provider found for resource: " ++ uri))

/-- `ResourceManager::subscribe`: insert the client into the URI's
subscriber set, then invoke the `subscribe` hook of **every** provider whose
`can_handle` accepts the URI (unconditionally, on every call). -/
def subscribe (st : ResourceMgrState) (uri client : String) :
    Except McpError (ResourceMgrState × List HookEvent) :=
  if !st.enabled then .error (.resource "Resource feature is disabled")
  else
    let subs :=
      match st.subscriptions.lookup uri with
      | some clients =>
          if client ∈ clients then st.subscriptions
          else assocInsert st.subscriptions uri (clients ++ [client])
      | none => st.subscriptions ++ [(uri, [client])]
    let events := (st.providers.filter (fun p => p.canHandle uri)).map
      (fun p => HookEvent.sub p.name uri)
    .ok ({ st with subscriptions := subs }, events)

/-- The subscription-map update of `ResourceManager::unsubscribe`: remove
the client from the URI's set and drop the entry when the set empties. -/
def unsubscribeSubs (subscriptions : List (String × List String)) (uri client : String) :
    List (String × List String) :=
  match subscriptions.lookup uri with
  | some clients =>
      let remaining := clients.filter (fun id => id ≠ client)
      if remaining.isEmpty then assocRemove subscriptions uri
      else assocInsert subscriptions uri remaining
  | none => subscriptions

/-- `ResourceManager::unsubscribe`: update the subscription map, then invoke
the `unsubscribe` hook of every matching provider when, after removal, the
URI has no entry (there is no enabled check and no check that the client was
subscribed). -/
def unsubscribe (st : ResourceMgrState) (uri client : String) :
    ResourceMgrState × List HookEvent :=
  let subs := unsubscribeSubs st.subscriptions uri client
  let events :=
    if (subs.lookup uri).isSome then []
    else (st.providers.filter (fun p => p.canHandle uri)).map
      (fun p => HookEvent.unsub p.name uri)
  ({ st with subscriptions := subs }, events)

end ResourceMgrState

/-! ## Tool manager (src/server/features/tools.rs) -/

/-- `ToolResult`. -/
structure ToolResult where
  content : List Content
  is_error : Bool
  deriving Repr

/-- `ToolResult::text`. -/
def ToolResult.text (text : String) : ToolResult :=
  { content := [.text text none], is_error := false }

/-- `ToolResult::error_text`. -/
def ToolResult.error_text (text : String) : ToolResult :=
  { content := [.text text none], is_error := true }

/-- A registered tool handler: the dynamic `ToolHandler` trait object with
`validate_arguments` and `execute` modelled as pure functions (the schema
accessors play no part in any claim). -/
structure HandlerImpl where
  name : String
  validate : Option Json → Except McpError Unit
  execute : Option Json → Except McpError ToolResult

/-- The `ToolManager` state. -/
structure ToolMgrState where
  tools : List (String × Tool)
  handlers : List (String × HandlerImpl)
  enabled : Bool

/-- Ascending name comparison used by `list_tools`'s `sort_by`. -/
def toolLe (a b : Tool) : Prop := a.name ≤ b.name

instance : DecidableRel toolLe := fun a b => inferInstanceAs (Decidable (a.name ≤ b.name))

instance : IsTotal Tool toolLe := ⟨fun a b => le_total a.name b.name⟩

instance : IsTrans Tool toolLe := ⟨fun _ _ _ h h' => le_trans h h'⟩

namespace ToolMgrState

/-- `ToolManager::register_tool`. -/
def registerTool (st : ToolMgrState) (t : Tool) : Except McpError ToolMgrState :=
  if !st.enabled then .error (.tool "Tool feature is disabled")
  else .ok { st with tools := assocInsert st.tools t.name t }

/-- `ToolManager::list_tools`. -/
def listTools (st : ToolMgrState) (pagination : Option PaginationParams) :
    Except McpError (List Tool × PaginationResult) :=
  if !st.enabled then .error (.tool "Tool feature is disabled")
  else
    let sorted := (st.tools.map (·.2)).insertionSort toolLe
    match pagination with
    | some params => .ok (applyPagination sorted params)
    | none => .ok (sorted, ⟨none⟩)

/-- `ToolManager::call_tool`: tool definition and handler must both exist;
`validate_arguments` runs before `execute`. -/
def callTool (st : ToolMgrState) (name : String) (arguments : Option Json) :
    Except McpError ToolResult :=
  if !st.enabled then .error (.tool "Tool feature is disabled")
  else
    match st.tools.lookup name with
    | none => .error (.tool ("Tool not found: " ++ name))
    | some _ =>
      match st.handlers.lookup name with
      | none => .error (.tool ("No handler found for tool: " ++ name))
      | some handler => do
          handler.validate arguments
          handler.execute arguments

end ToolMgrState

/-- `CalculatorToolHandler::execute`.  JSON numbers are integer-valued in
this model; the `f64` arithmetic of the non-claimed operation branches is
carried out on integers (`divide` truncates like the `as isize` cast, `power`
and `sqrt` use the integer counterparts).  The division-by-zero comparison
`b == 0.0` is exact in both models. -/
def calculatorExecute (arguments : Option Json) : Except McpError ToolResult := do
  let args ← match arguments with
    | some a => pure a
    | none => .error (.invalidParams "Calculator requires arguments")
  let operation ← match (args.getField "operation").bind Json.asStr with
    | some op => pure op
    | none => .error (.invalidParams "Operation is required")
  let a ← match (args.getField "a").bind Json.asNum with
    | some a => pure a
    | none => .error (.invalidParams "Parameter 'a' is required and must be a number")
  let b ← if operation == "sqrt" then pure (0 : Int)
    else match (args.getField "b").bind Json.asNum with
      | some b => pure b
      | none => .error (.invalidParams "Parameter 'b' is required and must be a number")
  let result : Except ToolResult Int :=
    if operation == "add" then .ok (a + b)
    else if operation == "subtract" then .ok (a - b)
    else if operation == "multiply" then .ok (a * b)
    else if operation == "divide" then
      if b = 0 then .error (ToolResult.error_text "Division by zero")
      else .ok (a / b)
    else if operation == "power" then .ok (a ^ b.toNat)
    else if operation == "sqrt" then .ok (Int.sqrt a)
    else .error (ToolResult.error_text ("Unknown operation: " ++ operation))
  match result with
  | .error tr => .ok tr
  | .ok r => .ok (ToolResult.text
      (toString a ++ " " ++ operation ++ " " ++ toString b ++ " = " ++ toString r))

/-- `CalculatorToolHandler::validate_arguments`. -/
def calculatorValidate (arguments : Option Json) : Except McpError Unit := do
  let args ← match arguments with
    | some a => pure a
    | none => .error (.invalidParams "Calculator requires arguments")
  if !args.isObj then .error (.invalidParams "Arguments must be an object")
  else do
    let operation ← match (args.getField "operation").bind Json.asStr with
      | some op => pure op
      | none => .error (.invalidParams "Operation is required and must be a string")
    let validOps := ["add", "subtract", "multiply", "divide", "power", "sqrt"]
    if !validOps.contains operation then
      .error (.invalidParams ("Invalid operation: " ++ operation
        ++ ". Valid operations are: add, subtract, multiply, divide, power, sqrt"))
    else if !((args.getField "a").map Json.isNum |>.getD false) then
      .error (.invalidParams "Parameter 'a' is required and must be a number")
    else if operation != "sqrt"
        && !((args.getField "b").map Json.isNum |>.getD false) then
      .error (.invalidParams "Parameter 'b' is required and must be a number")
    else
      .ok ()

/-- The calculator handler object. -/
def calculatorHandler : HandlerImpl :=
  { name := "calculator", validate := calculatorValidate, execute := calculatorExecute }

/-- `EchoToolHandler::execute`. -/
def echoExecute (arguments : Option Json) : Except McpError ToolResult :=
  let message :=
    match arguments with
    | some args => ((args.getField "message").bind Json.asStr).getD "Hello, world!"
    | none => "Hello, world!"
  .ok (ToolResult.text ("Echo: " ++ message))

/-- `EchoToolHandler::validate_arguments`. -/
def echoValidate (arguments : Option Json) : Except McpError Unit :=
  match arguments with
  | none => .ok ()
  | some args =>
    if !args.isObj then .error (.invalidParams "Arguments must be an object")
    else
      match args.getField "message" with
      | some m => if !m.isStr then .error (.invalidParams "Message must be a string") else .ok ()
      | none => .ok ()

/-- The echo handler object. -/
def echoHandler : HandlerImpl :=
  { name := "echo", validate := echoValidate, execute := echoExecute }

/-! ## Process-wide tool handler registry and discovery
(src/server/features/tools.rs) -/

/-- `ToolHandlerRegistration`.  The `factory` field of the source is
`fn() -> Result<Box<dyn ToolHandler>>`; what discovery observes of it is
whether the call succeeds and which handler it builds, so it is modelled as
that outcome, the created handler identified by its name. -/
structure ToolHandlerRegistration where
  name : String
  factory : Except String String
  priority : Int
  is_builtin : Bool
  deriving Repr

/-- `ToolHandlerConfig`. -/
structure ToolHandlerConfig where
  name : String
  enabled : Bool
  priority : Int
  config : List (String × Json)
  deriving Repr

/-- `ToolsConfig`. -/
structure ToolsConfig where
  handlers : List ToolHandlerConfig
  auto_discover_builtin : Bool
  enable_all_by_default : Bool
  deriving Repr

/-- Descending priority, the comparator of
`handlers.sort_by(|a, b| b.priority.cmp(&a.priority))`. -/
def priorityDesc (a b : ToolHandlerRegistration) : Prop := b.priority ≤ a.priority

instance : DecidableRel priorityDesc :=
  fun a b => inferInstanceAs (Decidable (b.priority ≤ a.priority))

instance : IsTotal ToolHandlerRegistration priorityDesc := ⟨fun a b => le_total b.priority a.priority⟩

instance : IsTrans ToolHandlerRegistration priorityDesc := ⟨fun _ _ _ h h' => le_trans h' h⟩

/-- The registry contents (the process-wide
`static TOOL_HANDLER_REGISTRY: Vec<ToolHandlerRegistration>`). -/
abbrev HandlerRegistry := List ToolHandlerRegistration

/-- `ToolHandlerRegistry::register`: duplicate names are rejected before any
mutation; a successful insert pushes the entry and re-sorts the whole vector
descending by priority (`sort_by` is stable, modelled by insertion sort). -/
def registerHandlerReg (regs : HandlerRegistry) (name : String)
    (factory : Except String String) (priority : Int) (is_builtin : Bool) :
    Except McpError Unit × HandlerRegistry :=
  if regs.any (fun h => h.name == name) then
    (.error (.tool ("Tool handler '" ++ name ++ "' is already registered")), regs)
  else
    (.ok (), (regs ++ [({ name, factory, priority, is_builtin } : ToolHandlerRegistration)]).insertionSort priorityDesc)

/-- `ToolHandlerRegistry::register_builtin_handlers`: echo then calculator,
both at priority 100, early-returning on the first error. -/
def registerBuiltinHandlers (regs : HandlerRegistry) :
    Except McpError Unit × HandlerRegistry :=
  match registerHandlerReg regs "echo" (.ok "echo") 100 true with
  | (.error e, regs') => (.error e, regs')
  | (.ok _, regs') => registerHandlerReg regs' "calculator" (.ok "calculator") 100 true

/-- `ToolHandlerDiscovery::filter_by_config`.  With no configuration, every
built-in registration passes.  With a configuration, an explicit entry
(`HashMap` collect keeps the last entry under a duplicated name) decides by
its `enabled` flag; otherwise built-ins pass when auto-discovery and the
enable-all default are both on; everything else is dropped.  The result is
sorted descending by priority. -/
def filterByConfig (regs : HandlerRegistry) (config : Option ToolsConfig) :
    HandlerRegistry :=
  match config with
  | none => regs.filter (·.is_builtin)
  | some c =>
    let enabled := regs.filter (fun r =>
      match c.handlers.reverse.find? (fun h => h.name == r.name) with
      | some handlerConfig => handlerConfig.enabled
      | none => r.is_builtin && c.auto_discover_builtin && c.enable_all_by_default)
    enabled.insertionSort priorityDesc

/-- `ToolHandlerDiscovery::discover_handlers`: make sure the built-ins are
registered (a duplicate error is deliberately swallowed), filter by the
configuration, then run each factory, skipping failures.  Returns the
created handlers (by name) and the updated process-wide registry. -/
def discoverHandlers (config : Option ToolsConfig) (regs : HandlerRegistry) :
    List String × HandlerRegistry :=
  let regs1 := (registerBuiltinHandlers regs).2
  let enabled := filterByConfig regs1 config
  (enabled.filterMap (fun r => r.factory.toOption), regs1)

/-! ## Session store and the DELETE route
(src/transport/session.rs, src/transport/http.rs) -/

/-- The session store keyed by id.  The per-session payload (timestamps,
state, kv data) plays no part in the DELETE claim and is elided. -/
abbrev SessionStore := List String

/-- `SessionManager::remove_session` (key removal; returns whether the
session was present, which the DELETE route ignores). -/
def removeSession (store : SessionStore) (id : String) : SessionStore :=
  store.filter (fun s => s ≠ id)

/-- `get_session_id`: the `Mcp-Session-Id` header as an optional string. -/
def getSessionId (header : Option String) : Option String := header

/-- `handle_delete_request` (src/transport/http.rs): with the header
present, remove the session unconditionally and answer 200; without it,
answer 400.  Whether the store contains the session is never consulted. -/
def handleDeleteRequest (header : Option String) (store : SessionStore) :
    Nat × SessionStore :=
  match getSessionId header with
  | some sessionId => (200, removeSession store sessionId)
  | none => (400, store)

/-! ## Prompt manager (src/server/features/prompts.rs) -/

/-- A prompt generator trait object. -/
structure GeneratorImpl where
  name : String
  validate : Option (List (String × String)) → Except McpError Unit
  generate : Option (List (String × String)) → Except McpError PromptResult

/-- The `PromptManager` state. -/
structure PromptMgrState where
  prompts : List (String × Prompt)
  generators : List (String × GeneratorImpl)
  enabled : Bool

/-- Ascending name comparison used by `list_prompts`'s `sort_by`. -/
def promptLe (a b : Prompt) : Prop := a.name ≤ b.name

instance : DecidableRel promptLe := fun a b => inferInstanceAs (Decidable (a.name ≤ b.name))

instance : IsTotal Prompt promptLe := ⟨fun a b => le_total a.name b.name⟩

instance : IsTrans Prompt promptLe := ⟨fun _ _ _ h h' => le_trans h h'⟩

namespace PromptMgrState

/-- `PromptManager::list_prompts`. -/
def listPrompts (st : PromptMgrState) (pagination : Option PaginationParams) :
    Except McpError (List Prompt × PaginationResult) :=
  if !st.enabled then .error (.prompt "Prompt feature is disabled")
  else
    let sorted := (st.prompts.map (·.2)).insertionSort promptLe
    match pagination with
    | some params => .ok (applyPagination sorted params)
    | none => .ok (sorted, ⟨none⟩)

/-- `PromptManager::get_prompt_with_args`: missing prompt is a Prompt error;
with a generator, validate then generate; without one, empty messages with
the prompt's description. -/
def getPromptWithArgs (st : PromptMgrState) (name : String)
    (arguments : Option (List (String × String))) : Except McpError PromptResult :=
  if !st.enabled then .error (.prompt "Prompt feature is disabled")
  else
    match st.prompts.lookup name with
    | none => .error (.prompt ("Prompt not found: " ++ name))
    | some prompt =>
      match st.generators.lookup name with
      | some gen => do
          gen.validate arguments
          gen.generate arguments
      | none => .ok { messages := [], description := prompt.description }

end PromptMgrState

/-! ## Protocol dispatcher (src/protocol/handler.rs) -/

/-- `RootsCapability`. -/
structure RootsCapability where
  list_changed : Option Bool
  deriving Repr

/-- `ClientCapabilities` (`experimental` and `sampling` are raw values). -/
structure ClientCapabilities where
  experimental : Option Json
  roots : Option RootsCapability
  sampling : Option Json
  deriving Repr

/-- `Implementation`. -/
structure Implementation where
  name : String
  version : String
  deriving Repr

/-- `InitializeRequest`. -/
structure InitializeRequest where
  protocol_version : String
  capabilities : ClientCapabilities
  client_info : Implementation
  deriving Repr

/-- serde parse of `RootsCapability`. -/
def parseRootsCapability : Json → Option RootsCapability
  | .obj fields =>
    match fields.lookup "listChanged" with
    | none => some ⟨none⟩
    | some .null => some ⟨none⟩
    | some (.bool b) => some ⟨some b⟩
    | some _ => none
  | _ => none

/-- serde parse of `Implementation`. -/
def parseImplementation : Json → Option Implementation
  | .obj fields => do
      let name ← parseStrField fields "name"
      let version ← parseStrField fields "version"
      some { name, version }
  | _ => none

/-- serde parse of `ClientCapabilities`. -/
def parseClientCapabilities : Json → Option ClientCapabilities
  | .obj fields => do
      let roots ← match fields.lookup "roots" with
        | none => some none
        | some .null => some none
        | some v => (parseRootsCapability v).map some
      some { experimental := parseOptField fields "experimental", roots,
             sampling := parseOptField fields "sampling" }
  | _ => none

/-- serde parse of `InitializeRequest`. -/
def parseInitializeRequest : Json → Option InitializeRequest
  | .obj fields => do
      let protocol_version ← parseStrField fields "protocolVersion"
      let capabilities ← (fields.lookup "capabilities").bind parseClientCapabilities
      let client_info ← (fields.lookup "clientInfo").bind parseImplementation
      some { protocol_version, capabilities, client_info }
  | _ => none

/-- serde parse of `PaginationParams` (optional `cursor` string). -/
def parsePaginationParams : Json → Option PaginationParams
  | .obj fields =>
    match fields.lookup "cursor" with
    | none => some ⟨none⟩
    | some .null => some ⟨none⟩
    | some (.str s) => some ⟨some s⟩
    | some _ => none
  | _ => none

/-- The `if let Ok(..) = from_value::<PaginationParams>(params)` pattern of
every list route: absent or unparseable parameters mean no pagination. -/
def parsePaginationOpt (params : Option Json) : Option PaginationParams :=
  match params with
  | some p => parsePaginationParams p
  | none => none

/-- The `ProtocolHandler` state: the three feature managers, the
`active_requests` map (modelled by its key set; the `Instant` values are
never read) and the initialized flag.  The sampling manager holds no state
any route reads. -/
structure ServerState where
  resources : ResourceMgrState
  tools : ToolMgrState
  prompts : PromptMgrState
  active : List Json
  initialized : Bool

/-- `HashMap::insert` on `active_requests`, key part. -/
def insertActive (active : List Json) (id : Json) : List Json :=
  if active.any (fun j => Json.beq j id) then active else id :: active

/-- `HashMap::remove` on `active_requests`, key part. -/
def removeActive (active : List Json) (id : Json) : List Json :=
  active.filter (fun j => !Json.beq j id)

/-- `ProtocolHandler::check_initialized`. -/
def checkInitialized (st : ServerState) : Except McpError Unit :=
  if st.initialized then .ok () else .error (.protocol "Server not initialized")

/-- `env!("CARGO_PKG_VERSION")`: the package manifest is outside the core
sources; the concrete version string is irrelevant to every claim. -/
def cargoPkgVersion : String := "0.1.0"

/-- The `ServerCapabilities` value assembled by `handle_initialize`,
serialized (fields in declaration order, `None` fields skipped). -/
def serverCapabilitiesJson (st : ServerState) : Json :=
  .obj ([("logging", .obj [])]
    ++ (if st.prompts.enabled then [("prompts", .obj [("listChanged", .bool true)])] else [])
    ++ (if st.resources.enabled then
          [("resources", .obj [("subscribe", .bool true), ("listChanged", .bool true)])] else [])
    ++ (if st.tools.enabled then [("tools", .obj [("listChanged", .bool true)])] else []))

/-- The serialized `InitializeResult` of `handle_initialize`. -/
def initializeResultJson (st : ServerState) : Json :=
  .obj [("protocolVersion", .str PROTOCOL_VERSION),
        ("capabilities", serverCapabilitiesJson st),
        ("serverInfo", .obj [("name", .str "mcp-server-rust"),
                             ("version", .str cargoPkgVersion)]),
        ("instructions", .str "A Model Context Protocol server implementation in Rust")]

/-- `handle_initialize`: parameters are required and must parse as an
`InitializeRequest` (a protocol-version mismatch is only logged); the
initialized flag is set.  The serde error detail inside the invalid-params
message is elided. -/
def handleInitialize (st : ServerState) (r : JsonRpcRequest) :
    Except McpError (Json × ServerState) :=
  match r.params with
  | none => .error (.invalidParams "Initialize request requires parameters")
  | some params =>
    match parseInitializeRequest params with
    | none => .error (.invalidParams "Invalid initialize parameters")
    | some _ => .ok (initializeResultJson st, { st with initialized := true })

/-- A paginated list response body (`nextCursor` added only when present). -/
def paginatedObj (key : String) (items : List Json) (pres : PaginationResult) : Json :=
  .obj ([(key, .arr items)]
        ++ (match pres.next_cursor with | none => [] | some c => [("nextCursor", .str c)]))

/-- `handle_resources_list`. -/
def handleResourcesList (st : ServerState) (r : JsonRpcRequest) :
    Except McpError (Json × ServerState) := do
  checkInitialized st
  let (resources, pres) ← st.resources.listResources (parsePaginationOpt r.params)
  .ok (paginatedObj "resources" (resources.map serializeResource) pres, st)

/-- `handle_resource_templates_list`. -/
def handleResourceTemplatesList (st : ServerState) (r : JsonRpcRequest) :
    Except McpError (Json × ServerState) := do
  checkInitialized st
  let (templates, pres) ← st.resources.listTemplates (parsePaginationOpt r.params)
  .ok (paginatedObj "resourceTemplates" (templates.map serializeResourceTemplate) pres, st)

/-- `handle_resources_read`. -/
def handleResourcesRead (st : ServerState) (r : JsonRpcRequest) :
    Except McpError (Json × ServerState) := do
  checkInitialized st
  match r.params with
  | none => .error (.invalidParams "resources/read request requires parameters")
  | some params =>
    match (params.getField "uri").bind Json.asStr with
    | none => .error (.invalidParams "Missing or invalid 'uri' parameter")
    | some uri => do
        let contents ← st.resources.readResource uri
        .ok (.obj [("contents", .arr (contents.map serializeResourceContents))], st)

/-- `handle_resources_subscribe` (the client id is the fixed
`"default-client"`). -/
def handleResourcesSubscribe (st : ServerState) (r : JsonRpcRequest) :
    Except McpError (Json × ServerState) := do
  checkInitialized st
  match r.params with
  | none => .error (.invalidParams "resources/subscribe request requires parameters")
  | some params =>
    match (params.getField "uri").bind Json.asStr with
    | none => .error (.invalidParams "Missing or invalid 'uri' parameter")
    | some uri => do
        let (res, _events) ← st.resources.subscribe uri "default-client"
        .ok (.obj [], { st with resources := res })

/-- `handle_resources_unsubscribe`. -/
def handleResourcesUnsubscribe (st : ServerState) (r : JsonRpcRequest) :
    Except McpError (Json × ServerState) := do
  checkInitialized st
  match r.params with
  | none => .error (.invalidParams "resources/unsubscribe request requires parameters")
  | some params =>
    match (params.getField "uri").bind Json.asStr with
    | none => .error (.invalidParams "Missing or invalid 'uri' parameter")
    | some uri =>
        let (res, _events) := st.resources.unsubscribe uri "default-client"
        .ok (.obj [], { st with resources := res })

/-- `handle_tools_list`. -/
def handleToolsList (st : ServerState) (r : JsonRpcRequest) :
    Except McpError (Json × ServerState) := do
  checkInitialized st
  let (tools, pres) ← st.tools.listTools (parsePaginationOpt r.params)
  .ok (paginatedObj "tools" (tools.map serializeTool) pres, st)

/-- `handle_tools_call`. -/
def handleToolsCall (st : ServerState) (r : JsonRpcRequest) :
    Except McpError (Json × ServerState) := do
  checkInitialized st
  match r.params with
  | none => .error (.invalidParams "tools/call request requires parameters")
  | some params =>
    match (params.getField "name").bind Json.asStr with
    | none => .error (.invalidParams "Missing or invalid 'name' parameter")
    | some name => do
        let result ← st.tools.callTool name (params.getField "arguments")
        .ok (.obj [("content", .arr (result.content.map serializeContent)),
                   ("isError", .bool result.is_error)], st)

/-- `handle_prompts_list`. -/
def handlePromptsList (st : ServerState) (r : JsonRpcRequest) :
    Except McpError (Json × ServerState) := do
  checkInitialized st
  let (prompts, pres) ← st.prompts.listPrompts (parsePaginationOpt r.params)
  .ok (paginatedObj "prompts" (prompts.map serializePrompt) pres, st)

/-- `handle_prompts_get` (`arguments` keeps only string-valued entries). -/
def handlePromptsGet (st : ServerState) (r : JsonRpcRequest) :
    Except McpError (Json × ServerState) := do
  checkInitialized st
  match r.params with
  | none => .error (.invalidParams "prompts/get request requires parameters")
  | some params =>
    match (params.getField "name").bind Json.asStr with
    | none => .error (.invalidParams "Missing or invalid 'name' parameter")
    | some name => do
        let arguments :=
          match params.getField "arguments" with
          | some (.obj fields) =>
              some (fields.filterMap (fun kv =>
                match kv.2 with | .str s => some (kv.1, s) | _ => none))
          | _ => none
        let result ← st.prompts.getPromptWithArgs name arguments
        .ok (.obj [("description", match result.description with
                    | none => .null
                    | some d => .str d),
                   ("messages", .arr (result.messages.map serializePromptMessage))], st)

/-- `handle_sampling_create_message` (a fixed placeholder payload). -/
def handleSamplingCreateMessage (st : ServerState) :
    Except McpError (Json × ServerState) := do
  checkInitialized st
  .ok (.obj [("role", .str "assistant"),
             ("content", .obj [("type", .str "text"),
                               ("text", .str "This is a placeholder response from the MCP server.")])], st)

/-- `handle_logging_set_level` (the level string is only logged). -/
def handleLoggingSetLevel (st : ServerState) (r : JsonRpcRequest) :
    Except McpError (Json × ServerState) := do
  checkInitialized st
  match r.params with
  | none => .error (.invalidParams "logging/setLevel request requires parameters")
  | some params =>
    match (params.getField "level").bind Json.asStr with
    | none => .error (.invalidParams "Missing or invalid 'level' parameter")
    | some _ => .ok (.obj [], st)

/-- `handle_completion_complete`. -/
def handleCompletionComplete (st : ServerState) :
    Except McpError (Json × ServerState) := do
  checkInitialized st
  .ok (.obj [("completion", .obj [("values", .arr []), ("total", .num 0),
                                  ("hasMore", .bool false)])], st)

/-- `handle_roots_list`. -/
def handleRootsList (st : ServerState) :
    Except McpError (Json × ServerState) := do
  checkInitialized st
  .ok (.obj [("roots", .arr [])], st)

/-- The method dispatch of `handle_request` (the `match request.method`). -/
def routeMethod (st : ServerState) (r : JsonRpcRequest) :
    Except McpError (Json × ServerState) :=
  if r.method == "initialize" then handleInitialize st r
  else if r.method == "ping" then .ok (.obj [], st)
  else if r.method == "resources/list" then handleResourcesList st r
  else if r.method == "resources/templates/list" then handleResourceTemplatesList st r
  else if r.method == "resources/read" then handleResourcesRead st r
  else if r.method == "resources/subscribe" then handleResourcesSubscribe st r
  else if r.method == "resources/unsubscribe" then handleResourcesUnsubscribe st r
  else if r.method == "tools/list" then handleToolsList st r
  else if r.method == "tools/call" then handleToolsCall st r
  else if r.method == "prompts/list" then handlePromptsList st r
  else if r.method == "prompts/get" then handlePromptsGet st r
  else if r.method == "sampling/createMessage" then handleSamplingCreateMessage st
  else if r.method == "logging/setLevel" then handleLoggingSetLevel st r
  else if r.method == "completion/complete" then handleCompletionComplete st
  else if r.method == "roots/list" then handleRootsList st
  else .error (.method_not_found r.method)

/-- `ProtocolHandler::handle_request`: validate, track in `active_requests`,
route, untrack, and fold the routing outcome into a success or error
response carrying the request's id.  Validation failures escape as errors
(the `?` operator), they are not folded. -/
def handleRequest (st : ServerState) (r : JsonRpcRequest) :
    Except McpError (JsonRpcResponse × ServerState) :=
  match validateRequest r with
  | .error e => .error e
  | .ok _ =>
    match validateMethodName r.method with
    | .error e => .error e
    | .ok _ =>
      let st1 := { st with active := insertActive st.active r.id }
      match routeMethod st1 r with
      | .ok (v, st') =>
          .ok (JsonRpcResponse.success r.id v,
               { st' with active := removeActive st'.active r.id })
      | .error e =>
          .ok (JsonRpcResponse.mkError r.id e.toJsonRpcError,
               { st1 with active := removeActive st1.active r.id })

/-- `ProtocolHandler::handle_notification`: validate, then switch;
`notifications/initialized` sets the flag, `notifications/cancelled` drops
the request id from `active_requests`, every other notification (known or
unknown) has no modelled effect. -/
def handleNotification (st : ServerState) (n : JsonRpcNotification) :
    Except McpError ServerState :=
  match validateNotification n with
  | .error e => .error e
  | .ok _ =>
    match validateMethodName n.method with
    | .error e => .error e
    | .ok _ =>
      if n.method == "notifications/initialized" then
        .ok { st with initialized := true }
      else if n.method == "notifications/cancelled" then
        .ok (match n.params with
          | some params =>
            match params.getField "requestId" with
            | some rid => { st with active := removeActive st.active rid }
            | none => st
          | none => st)
      else
        .ok st

/-- `ProtocolHandler::handle_response`: validate and log. -/
def handleResponseMsg (st : ServerState) (resp : JsonRpcResponse) :
    Except McpError ServerState :=
  match validateResponse resp with
  | .error e => .error e
  | .ok _ => .ok st

/-- The element-wise loop of `handle_batch`: parse each raw value, dispatch
it through `handle` (the recursive `handle_message` call, passed in), and
keep the serialized responses. -/
def handleBatchList
    (handle : ServerState → AnyJsonRpcMessage → Except McpError (Option AnyJsonRpcMessage × ServerState)) :
    ServerState → List Json → Except McpError (List Json × ServerState)
  | st, [] => .ok ([], st)
  | st, item :: rest =>
    match parse_message item with
    | .error e => .error e
    | .ok msg =>
      match handle st msg with
      | .error e => .error e
      | .ok (out, st') =>
        match handleBatchList handle st' rest with
        | .error e => .error e
        | .ok (more, st'') =>
          match out with
          | some (.response resp) => .ok (serializeResponse resp :: more, st'')
          | _ => .ok (more, st'')

/-- `ProtocolHandler::handle_message`.  A request yields its response; a
notification or inbound response yields nothing; a non-empty batch is
dispatched element-wise, collecting the responses.  `fuel` bounds the
nesting depth of batches inside batches (the source recurses through
`Box::pin`, bounded by the finite depth of the parsed JSON); no claim
exercises a batch, and non-batch messages never consume fuel. -/
def handleMessage : Nat → ServerState → AnyJsonRpcMessage →
    Except McpError (Option AnyJsonRpcMessage × ServerState)
  | _, st, .request r =>
    (match handleRequest st r with
     | .error e => .error e
     | .ok (resp, st') => .ok (some (.response resp), st'))
  | _, st, .notification n =>
    (match handleNotification st n with
     | .error e => .error e
     | .ok st' => .ok (none, st'))
  | _, st, .response resp =>
    (match handleResponseMsg st resp with
     | .error e => .error e
     | .ok st' => .ok (none, st'))
  | 0, _, .batch items =>
    if items.isEmpty then .error (.invalidRequest "Batch cannot be empty")
    else .error (.internalError "batch nesting exceeds fuel")
  | fuel + 1, st, .batch items =>
    if items.isEmpty then .error (.invalidRequest "Batch cannot be empty")
    else
      match handleBatchList (handleMessage fuel) st items with
      | .error e => .error e
      | .ok (responses, st') =>
        if responses.isEmpty then .ok (none, st')
        else .ok (some (.batch responses), st')

/-! ## Spec-side predicates and concrete fixtures used by the claims -/

/-- The discovery enablement rule as the specification states it: an explicit
configuration entry decides by its `enabled` flag; otherwise built-ins are
enabled when auto-discovery and the enable-all default both hold; otherwise
disabled. -/
def specShouldEnable (cfg : ToolsConfig) (r : ToolHandlerRegistration) : Bool :=
  match cfg.handlers.reverse.find? (fun h => h.name == r.name) with
  | some entry => entry.enabled
  | none => r.is_builtin && cfg.auto_discover_builtin && cfg.enable_all_by_default

/-- The round-trip hypothesis of the amended codec law: no optional
JSON-valued field holds `Some(Value::Null)` (serde serializes it as `null`,
which parses back to `None`). -/
def noSomeNull : AnyJsonRpcMessage → Prop
  | .request r => r.params ≠ some .null
  | .notification n => n.params ≠ some .null
  | .response r => r.result ≠ some .null ∧ ∀ e, r.error = some e → e.data ≠ some .null
  | .batch _ => True

/-- The routed methods behind the initialization gate (every dispatcher
route except `initialize` and `ping`). -/
def gatedMethods : List String :=
  ["resources/list", "resources/templates/list", "resources/read",
   "resources/subscribe", "resources/unsubscribe", "tools/list", "tools/call",
   "prompts/list", "prompts/get", "sampling/createMessage", "logging/setLevel",
   "completion/complete", "roots/list"]

/-- A freshly constructed server: empty managers, all features enabled, the
initialized flag down. -/
def emptyServerState : ServerState :=
  { resources := { resources := [], templates := [], providers := [],
                   subscriptions := [], enabled := true },
    tools := { tools := [], handlers := [], enabled := true },
    prompts := { prompts := [], generators := [], enabled := true },
    active := [], initialized := false }

/-- The calculator's input schema (`CalculatorToolHandler::input_schema`). -/
def calculatorInputSchema : ToolInputSchema :=
  { schema_type := "object",
    properties := some
      [("operation", .obj [("type", .str "string"),
                           ("description", .str "Mathematical operation to perform"),
                           ("enum", .arr [.str "add", .str "subtract", .str "multiply",
                                          .str "divide", .str "power", .str "sqrt"])]),
       ("a", .obj [("type", .str "number"), ("description", .str "First operand")]),
       ("b", .obj [("type", .str "number"),
                   ("description", .str "Second operand (not required for sqrt)")])],
    required := some ["operation", "a"] }

/-- The calculator's tool definition (`tool_definition()` of the handler). -/
def calculatorTool : Tool :=
  { name := "calculator", description := some "Perform mathematical calculations",
    input_schema := calculatorInputSchema, annotations := none }

/-- A tool manager with the calculator tool and handler registered. -/
def calcToolState : ToolMgrState :=
  { tools := [("calculator", calculatorTool)],
    handlers := [("calculator", calculatorHandler)], enabled := true }

/-- The `tools/call` arguments of the divide-by-zero scenario. -/
def calcDivideArgs : Json :=
  .obj [("operation", .str "divide"), ("a", .num 5), ("b", .num 0)]

/-- A one-entry handler registry (echo at priority 100). -/
def regFixture : HandlerRegistry :=
  [{ name := "echo", factory := .ok "echo", priority := 100, is_builtin := true }]

/-- A provider accepting every URI whose hook invocations the subscription
claims observe. -/
def hookProbeProvider : ResourceProvider :=
  { name := "p", canHandle := fun _ => true, listed := .ok [], readRes := fun _ => .ok [] }

/-- A resource manager with one provider and an existing subscriber `c1` on
URI `u`. -/
def subFixture : ResourceMgrState :=
  { resources := [], templates := [], providers := [hookProbeProvider],
    subscriptions := [("u", ["c1"])], enabled := true }

/-- The default `text://hello` resource registered by `setup_defaults`. -/
def helloResource : Resource :=
  { uri := "text://hello", name := "Hello World",
    description := some "A simple hello world text resource",
    mime_type := some "text/plain", annotations := none, size := some 13 }

/-- The `SimpleTextProvider`'s listing of the same URI (size 65). -/
def simpleTextListing : Resource :=
  { uri := "text://hello", name := "Hello World",
    description := some "A simple hello world text resource",
    mime_type := some "text/plain", annotations := none, size := some 65 }

/-- `SimpleTextProvider` (src/protocol/handler.rs). -/
def simpleTextProvider : ResourceProvider :=
  { name := "simple-text",
    canHandle := fun uri => strStartsWith uri "text://",
    listed := .ok [simpleTextListing],
    readRes := fun uri =>
      if uri == "text://hello" then
        .ok [.text uri (some "text/plain")
              "Hello, World! This is a simple text resource from the MCP server."]
      else .error (.resource ("Unknown text resource: " ++ uri)) }

/-- The resource manager state `setup_defaults` produces: the static
`text://hello` registration plus the provider listing the same URI. -/
def dupFixture : ResourceMgrState :=
  { resources := [("text://hello", helloResource)], templates := [],
    providers := [simpleTextProvider], subscriptions := [], enabled := true }

/-- A tool with the given name and a trivial object schema. -/
def mkSimpleTool (nm : String) : Tool :=
  { name := nm, description := none,
    input_schema := { schema_type := "object", properties := none, required := none },
    annotations := none }

/-- A tool manager holding 51 registered tools. -/
def bigToolState : ToolMgrState :=
  { tools := (List.range 51).map (fun i => (toString i, mkSimpleTool (toString i))),
    handlers := [], enabled := true }

/-- The handshake parameters of the spec's concrete scenario 1. -/
def initParamsFixture : Json :=
  .obj [("protocolVersion", .str "2025-03-26"),
        ("capabilities", .obj []),
        ("clientInfo", .obj [("name", .str "c"), ("version", .str "1")])]

/-! ## Helper lemmas -/

/-- A page is a sublist of the paginated list. -/
theorem applyPagination_fst_sublist (items : List α) (params : PaginationParams) :
    (applyPagination items params).1.Sublist items := by
  unfold applyPagination
  by_cases h : (params.cursor.bind parseUsize).getD 0 < items.length
  · simp only [h, if_true]
    exact ((items.drop _).take_sublist _).trans (items.drop_sublist _)
  · simp [h]

/-- A page holds at most 50 items. -/
theorem applyPagination_fst_length_le (items : List α) (params : PaginationParams) :
    (applyPagination items params).1.length ≤ 50 := by
  unfold applyPagination
  by_cases h : (params.cursor.bind parseUsize).getD 0 < items.length
  · simp only [h, if_true, List.length_take, List.length_drop]
    have : min ((params.cursor.bind parseUsize).getD 0 + 50) items.length
        - (params.cursor.bind parseUsize).getD 0 ≤ 50 := by omega
    omega
  · simp [h]

/-- On a 51-item list the first page is the first 50 items with no
continuation cursor: the `next_cursor` guard compares against the post-drain
length (1), not the original length (51). -/
theorem applyPagination_len51 (items : List α) (h : items.length = 51) :
    applyPagination items ⟨none⟩ = (items.take 50, ⟨none⟩) := by
  unfold applyPagination
  simp [h]

/-! ## The claims -/

/-- C6: calling the calculator through `call_tool` with
`{operation: "divide", a: 5, b: 0}` (tool and handler registered) succeeds
at the RPC level and yields `ToolResult{is_error: true}` whose single
content item is `Text "Division by zero"`. -/
theorem claim_C6_calculator_divide_by_zero :
    calcToolState.callTool "calculator" (some calcDivideArgs) =
      .ok { content := [Content.text "Division by zero" none], is_error := true } := rfl

/-- C8: `ToolHandlerRegistry::register` rejects a duplicate name with a Tool
error and leaves the registry unchanged; a successful insert leaves the
registration list sorted descending by priority. -/
theorem claim_C8_register_sorted :
    ∀ (regs : HandlerRegistry) (nm : String) (f : Except String String) (p : Int) (b : Bool),
      ((∃ r ∈ regs, r.name = nm) →
        registerHandlerReg regs nm f p b =
          (.error (.tool ("Tool handler '" ++ nm ++ "' is already registered")), regs)) ∧
      ((¬ ∃ r ∈ regs, r.name = nm) →
        (registerHandlerReg regs nm f p b).1 = .ok () ∧
        List.Pairwise priorityDesc (registerHandlerReg regs nm f p b).2) := by
  intro regs nm f p b
  constructor
  · intro h
    obtain ⟨r, hr, hname⟩ := h
    unfold registerHandlerReg
    rw [if_pos]
    exact List.any_eq_true.mpr ⟨r, hr, by simp [hname]⟩
  · intro h
    have hc : ¬ (regs.any (fun h => h.name == nm) = true) := by
      simp only [List.any_eq_true, beq_iff_eq]
      exact h
    unfold registerHandlerReg
    rw [if_neg hc]
    exact ⟨rfl, List.sorted_insertionSort priorityDesc _⟩

/-- Witness for C8 at a concrete registry: a duplicate `echo` registration
errors and leaves the registry as it was; a fresh `calculator` registration
succeeds into a priority-sorted list. -/
theorem claim_C8_register_sorted_witness :
    (registerHandlerReg regFixture "echo" (.ok "echo2") 50 true =
      (.error (.tool ("Tool handler '" ++ "echo" ++ "' is already registered")), regFixture)) ∧
    ((registerHandlerReg regFixture "calculator" (.ok "calculator") 50 true).1 = .ok () ∧
      List.Pairwise priorityDesc
        (registerHandlerReg regFixture "calculator" (.ok "calculator") 50 true).2) :=
  ⟨(claim_C8_register_sorted regFixture "echo" (.ok "echo2") 50 true).1
      ⟨{ name := "echo", factory := .ok "echo", priority := 100, is_builtin := true },
       by simp [regFixture], rfl⟩,
   (claim_C8_register_sorted regFixture "calculator" (.ok "calculator") 50 true).2
      (by simp [regFixture])⟩

/-- C9 counterexample: with the `Mcp-Session-Id` header present but naming
no stored session, DELETE answers 200 (after a no-op removal), not the 400
the claim requires. -/
theorem claim_C9_counterexample :
    handleDeleteRequest (some "sess-1") ([] : SessionStore) = (200, []) ∧ (200 : Nat) ≠ 400 :=
  ⟨rfl, by decide⟩

/-- C9 amended: DELETE answers 200 and removes any session under that id
exactly when the `Mcp-Session-Id` header is present — whether or not such a
session exists — and answers 400 exactly when the header is absent. -/
theorem claim_C9_delete_route :
    ∀ (header : Option String) (store : SessionStore),
      (header = none → handleDeleteRequest header store = (400, store)) ∧
      (∀ id, header = some id →
        handleDeleteRequest header store = (200, store.filter (fun s => s ≠ id))) := by
  intro header store
  constructor
  · intro h
    rw [h]
    rfl
  · intro id h
    rw [h]
    rfl

/-- Witness for C9 at concrete headers and stores. -/
theorem claim_C9_delete_route_witness :
    handleDeleteRequest none ["s"] = (400, ["s"]) ∧
    handleDeleteRequest (some "s") ["s", "t"] = (200, ["s", "t"].filter (fun x => x ≠ "s")) :=
  ⟨(claim_C9_delete_route none ["s"]).1 rfl,
   (claim_C9_delete_route (some "s") ["s", "t"]).2 "s" rfl⟩

/-- C7: `filter_by_config` enables a registration exactly by the
explicit-entry / built-in-auto-discovery rule, and discovery without a
configuration instantiates exactly the built-in registrations (concretely,
from an empty registry: echo and calculator). -/
theorem claim_C7_discovery_rule :
    (∀ (regs : HandlerRegistry) (cfg : ToolsConfig) (r : ToolHandlerRegistration),
      r ∈ filterByConfig regs (some cfg) ↔ (r ∈ regs ∧ specShouldEnable cfg r = true)) ∧
    (∀ regs : HandlerRegistry,
      (discoverHandlers none regs).1 =
        (((registerBuiltinHandlers regs).2.filter (·.is_builtin)).filterMap
          (fun r => r.factory.toOption))) ∧
    (discoverHandlers none []).1 = ["echo", "calculator"] := by
  refine ⟨?_, fun _ => rfl, rfl⟩
  intro regs cfg r
  simp only [filterByConfig, List.mem_insertionSort, List.mem_filter, specShouldEnable]

/-- C3 counterexample: URI `u` already has subscriber `c1` (the set is
non-empty), yet a second subscribe for client `c2` still invokes the
matching provider's subscribe hook — the claim requires no hook without an
empty→non-empty transition. -/
theorem claim_C3_counterexample :
    subFixture.subscriptions.lookup "u" = some ["c1"] ∧
    (subFixture.subscribe "u" "c2").toOption.map (fun x => x.2) =
      some [HookEvent.sub "p" "u"] :=
  ⟨rfl, rfl⟩

/-- C3 amended: `subscribe` invokes the subscribe hook of every matching
provider on every call, regardless of the prior subscriber set; the
`unsubscribe` hooks fire exactly when the URI's subscriber entry is absent
after the removal (including when it was never present) and some provider
matches. -/
theorem claim_C3_subscription_hooks :
    (∀ (st : ResourceMgrState) (uri client : String) (st' : ResourceMgrState)
       (events : List HookEvent),
      st.subscribe uri client = .ok (st', events) →
      events = (st.providers.filter (fun p => p.canHandle uri)).map
        (fun p => HookEvent.sub p.name uri)) ∧
    (∀ (st : ResourceMgrState) (uri client : String),
      (st.unsubscribe uri client).2 ≠ [] ↔
        ((st.unsubscribe uri client).1.subscriptions.lookup uri = none ∧
         st.providers.filter (fun p => p.canHandle uri) ≠ [])) := by
  constructor
  · intro st uri client st' events heq
    by_cases hen : st.enabled = true
    · unfold ResourceMgrState.subscribe at heq
      rw [hen] at heq
      simp only [Bool.not_true, Bool.false_eq_true, if_false, Except.ok.injEq,
        Prod.mk.injEq] at heq
      exact heq.2.symm
    · unfold ResourceMgrState.subscribe at heq
      rw [Bool.not_eq_true] at hen
      rw [hen] at heq
      simp at heq
  · intro st uri client
    have h2 : (st.unsubscribe uri client).2 =
        (if ((ResourceMgrState.unsubscribeSubs st.subscriptions uri client).lookup uri).isSome
         then []
         else (st.providers.filter (fun p => p.canHandle uri)).map
           (fun p => HookEvent.unsub p.name uri)) := rfl
    have h1 : (st.unsubscribe uri client).1.subscriptions =
        ResourceMgrState.unsubscribeSubs st.subscriptions uri client := rfl
    rw [h1, h2]
    by_cases h : ((ResourceMgrState.unsubscribeSubs st.subscriptions uri client).lookup uri).isSome
    · rw [if_pos h]
      rw [Option.isSome_iff_exists] at h
      obtain ⟨a, ha⟩ := h
      simp [ha]
    · rw [if_neg h]
      rw [Option.not_isSome_iff_eq_none] at h
      simp [h, List.map_eq_nil_iff]

/-- Witness for C3 at the concrete fixture: the subscribe hook list for a
second subscriber, and the unsubscribe firing condition. -/
theorem claim_C3_subscription_hooks_witness :
    ([HookEvent.sub "p" "u"] =
      (subFixture.providers.filter (fun p => p.canHandle "u")).map
        (fun p => HookEvent.sub p.name "u")) ∧
    ((subFixture.unsubscribe "u" "c1").2 ≠ [] ↔
      ((subFixture.unsubscribe "u" "c1").1.subscriptions.lookup "u" = none ∧
       subFixture.providers.filter (fun p => p.canHandle "u") ≠ [])) :=
  ⟨claim_C3_subscription_hooks.1 subFixture "u" "c2"
      { subFixture with subscriptions := [("u", ["c1", "c2"])] }
      [HookEvent.sub "p" "u"] rfl,
   claim_C3_subscription_hooks.2 subFixture "u" "c1"⟩

/-- C4 counterexample: the `setup_defaults` registry (static `text://hello`
plus the provider listing the same URI) makes `list_resources` return two
entries with the same URI — the listing is not deduplicated by URI. -/
theorem claim_C4_counterexample :
    dupFixture.listResources none =
      .ok (List.insertionSort resourceLe [helloResource, simpleTextListing], ⟨none⟩) ∧
    (List.insertionSort resourceLe [helloResource, simpleTextListing]).map Resource.uri =
      ["text://hello", "text://hello"] := by
  refine ⟨rfl, ?_⟩
  rw [show (["text://hello", "text://hello"] : List String)
        = List.replicate 2 "text://hello" from rfl, ← List.perm_replicate]
  exact List.Perm.map Resource.uri (List.perm_insertionSort resourceLe _)

/-- C4 amended: `list_resources` returns pages of the static registry's
values joined with every provider's listing — **without** deduplication —
sorted ascending by URI; a full listing (no pagination) is exactly that
union, and a paginated page holds at most 50 entries. -/
theorem claim_C4_list_resources :
    ∀ (st : ResourceMgrState) (pagination : Option PaginationParams)
      (res : List Resource × PaginationResult),
      st.listResources pagination = .ok res →
      List.Pairwise resourceLe res.1 ∧
      (pagination = none →
        res.1.Perm (st.resources.map (·.2)
          ++ (st.providers.map (fun p => p.listed.toOption.getD [])).flatten)) ∧
      (∀ params, pagination = some params → res.1.length ≤ 50) := by
  intro st pagination res heq
  unfold ResourceMgrState.listResources at heq
  by_cases hen : st.enabled = true
  · rw [hen] at heq
    simp only [Bool.not_true, Bool.false_eq_true, if_false] at heq
    cases pagination with
    | none =>
      simp only [Except.ok.injEq] at heq
      subst heq
      refine ⟨List.sorted_insertionSort resourceLe _, fun _ => List.perm_insertionSort _ _, ?_⟩
      intro params h
      simp at h
    | some params =>
      simp only [Except.ok.injEq] at heq
      subst heq
      refine ⟨?_, ?_, fun _ _ => applyPagination_fst_length_le _ _⟩
      · exact List.Pairwise.sublist (applyPagination_fst_sublist _ _)
          (List.sorted_insertionSort resourceLe _)
      · intro h
        simp at h
  · rw [Bool.not_eq_true] at hen
    rw [hen] at heq
    simp at heq

/-- Witness for C4 at the concrete duplicate fixture with pagination. -/
theorem claim_C4_list_resources_witness :
    List.Pairwise resourceLe
      (applyPagination
        (List.insertionSort resourceLe [helloResource, simpleTextListing])
        (⟨none⟩ : PaginationParams)).1 ∧
    (applyPagination
        (List.insertionSort resourceLe [helloResource, simpleTextListing])
        (⟨none⟩ : PaginationParams)).1.length ≤ 50 :=
  have h := claim_C4_list_resources dupFixture (some ⟨none⟩)
    (applyPagination
      (List.insertionSort resourceLe [helloResource, simpleTextListing]) ⟨none⟩) rfl
  ⟨h.1, h.2.2 ⟨none⟩ rfl⟩

/-- C5 (code bug): on a registry of 51 tools, the first page returns 50
tools with `next_cursor = none` — the guard compares the cursor against the
vector length *after* `drain` — so following cursors until exhaustion
concatenates only 50 of the 51 sorted tools, not the full list. -/
theorem claim_C5_pagination_drops_tail :
    bigToolState.listTools (some ⟨none⟩) =
      .ok (((bigToolState.tools.map (·.2)).insertionSort toolLe).take 50, ⟨none⟩) ∧
    collectPages 100 ((bigToolState.tools.map (·.2)).insertionSort toolLe) none =
      ((bigToolState.tools.map (·.2)).insertionSort toolLe).take 50 ∧
    (((bigToolState.tools.map (·.2)).insertionSort toolLe).take 50).length = 50 ∧
    ((bigToolState.tools.map (·.2)).insertionSort toolLe).length = 51 := by
  have hlen : ((bigToolState.tools.map (·.2)).insertionSort toolLe).length = 51 := by
    rw [List.length_insertionSort, List.length_map]
    rw [show bigToolState.tools = (List.range 51).map (fun i => (toString i, mkSimpleTool (toString i))) from rfl]
    rw [List.length_map, List.length_range]
  have hap := applyPagination_len51 _ hlen
  refine ⟨?_, ?_, ?_, hlen⟩
  · unfold ToolMgrState.listTools
    simp only [show bigToolState.enabled = true from rfl, Bool.not_true,
      Bool.false_eq_true, if_false]
    rw [hap]
  · unfold collectPages
    rw [hap]
  · rw [List.length_take, hlen]
    omega

/-- C10 counterexample: a notification carrying `params = Some(Value::Null)`
serializes to `"params": null`, which parses back to `params = None` — the
round-trip does not return the original message. -/
theorem claim_C10_counterexample :
    parse_message (serialize_message
      (.notification { jsonrpc := "2.0", method := "ping", params := some .null })) ≠
    .ok (.notification { jsonrpc := "2.0", method := "ping", params := some .null }) := by
  have h : parse_message (serialize_message
      (.notification { jsonrpc := "2.0", method := "ping", params := some .null })) =
      .ok (.notification { jsonrpc := "2.0", method := "ping", params := none }) := rfl
  rw [h]
  intro heq
  simp at heq

/-- C10 amended: `parse_message ∘ serialize_message` is the identity on
every constructible message in which no optional JSON-valued field
(`params`, `result`, error `data`) is `Some(Value::Null)`. -/
theorem claim_C10_roundtrip :
    ∀ m : AnyJsonRpcMessage, noSomeNull m → parse_message (serialize_message m) = .ok m := by
  intro m hm
  cases m with
  | request r =>
    obtain ⟨j, i, mth, ps⟩ := r
    simp only [noSomeNull] at hm
    cases ps with
    | none => rfl
    | some v => cases v <;> first | exact absurd rfl hm | rfl
  | notification n =>
    obtain ⟨j, mth, ps⟩ := n
    simp only [noSomeNull] at hm
    cases ps with
    | none => rfl
    | some v => cases v <;> first | exact absurd rfl hm | rfl
  | response r =>
    obtain ⟨j, i, res, err⟩ := r
    simp only [noSomeNull] at hm
    obtain ⟨hres, herr⟩ := hm
    cases err with
    | none =>
      cases res with
      | none => rfl
      | some v => cases v <;> first | exact absurd rfl hres | rfl
    | some e =>
      obtain ⟨c, msg, d⟩ := e
      have hd : d ≠ some .null := herr ⟨c, msg, d⟩ rfl
      cases res with
      | none =>
        cases d with
        | none => rfl
        | some dv => cases dv <;> first | exact absurd rfl hd | rfl
      | some v =>
        cases v with
        | null => exact absurd rfl hres
        | _ =>
          cases d with
          | none => rfl
          | some dv => cases dv <;> first | exact absurd rfl hd | rfl
  | batch items => rfl

/-- Witness for C10 at a concrete request. -/
theorem claim_C10_roundtrip_witness :
    noSomeNull (.request { jsonrpc := "2.0", id := .num 1, method := "ping", params := none }) ∧
    parse_message (serialize_message
      (.request { jsonrpc := "2.0", id := .num 1, method := "ping", params := none })) =
      .ok (.request { jsonrpc := "2.0", id := .num 1, method := "ping", params := none }) :=
  ⟨by simp [noSomeNull], claim_C10_roundtrip _ (by simp [noSomeNull])⟩

/-- Every gated method name passes `validate_method_name`. -/
theorem validateMethodName_gated (m : String) (h : m ∈ gatedMethods) :
    validateMethodName m = .ok () := by
  fin_cases h <;> rfl

/-- Binding after an `Err` short-circuits (the `?` operator). -/
theorem errorBind (e : McpError) (f : α → Except McpError β) :
    (Except.error e >>= f) = Except.error e := rfl

/-- With the initialized flag down, every gated route answers the
`Server not initialized` protocol error. -/
theorem routeMethod_gated (st : ServerState) (j : String) (i : Json) (m : String)
    (ps : Option Json) (h : m ∈ gatedMethods) (hinit : st.initialized = false) :
    routeMethod st { jsonrpc := j, id := i, method := m, params := ps } =
      .error (.protocol "Server not initialized") := by
  have hci : checkInitialized st = .error (.protocol "Server not initialized") := by
    unfold checkInitialized
    rw [hinit]
    rfl
  fin_cases h
  case _ => -- resources/list
    show handleResourcesList st _ = _
    unfold handleResourcesList
    rw [hci, errorBind]
  case _ => -- resources/templates/list
    show handleResourceTemplatesList st _ = _
    unfold handleResourceTemplatesList
    rw [hci, errorBind]
  case _ => -- resources/read
    show handleResourcesRead st _ = _
    unfold handleResourcesRead
    rw [hci, errorBind]
  case _ => -- resources/subscribe
    show handleResourcesSubscribe st _ = _
    unfold handleResourcesSubscribe
    rw [hci, errorBind]
  case _ => -- resources/unsubscribe
    show handleResourcesUnsubscribe st _ = _
    unfold handleResourcesUnsubscribe
    rw [hci, errorBind]
  case _ => -- tools/list
    show handleToolsList st _ = _
    unfold handleToolsList
    rw [hci, errorBind]
  case _ => -- tools/call
    show handleToolsCall st _ = _
    unfold handleToolsCall
    rw [hci, errorBind]
  case _ => -- prompts/list
    show handlePromptsList st _ = _
    unfold handlePromptsList
    rw [hci, errorBind]
  case _ => -- prompts/get
    show handlePromptsGet st _ = _
    unfold handlePromptsGet
    rw [hci, errorBind]
  case _ => -- sampling/createMessage
    show handleSamplingCreateMessage st = _
    unfold handleSamplingCreateMessage
    rw [hci, errorBind]
  case _ => -- logging/setLevel
    show handleLoggingSetLevel st _ = _
    unfold handleLoggingSetLevel
    rw [hci, errorBind]
  case _ => -- completion/complete
    show handleCompletionComplete st = _
    unfold handleCompletionComplete
    rw [hci, errorBind]
  case _ => -- roots/list
    show handleRootsList st = _
    unfold handleRootsList
    rw [hci, errorBind]

/-- C2: with the initialized flag down, every routed method other than
`initialize` and `ping` produces the `-32603` "Server not initialized" error
response, while `ping` and a well-formed `initialize` succeed (`initialize`
raising the flag). -/
theorem claim_C2_initialization_gate :
    ∀ (st : ServerState) (r : JsonRpcRequest),
      st.initialized = false →
      validateRequest r = .ok () →
      ((r.method ∈ gatedMethods →
        handleRequest st r =
          .ok (JsonRpcResponse.mkError r.id
                 { code := -32603, message := "Protocol error: Server not initialized",
                   data := none },
               { st with active := removeActive (insertActive st.active r.id) r.id })) ∧
       (r.method = "ping" →
        handleRequest st r =
          .ok (JsonRpcResponse.success r.id (.obj []),
               { st with active := removeActive (insertActive st.active r.id) r.id })) ∧
       (∀ params, r.method = "initialize" → r.params = some params →
        (parseInitializeRequest params).isSome = true →
        handleRequest st r =
          .ok (JsonRpcResponse.success r.id
                 (initializeResultJson { st with active := insertActive st.active r.id }),
               { st with active := removeActive (insertActive st.active r.id) r.id,
                         initialized := true }))) := by
  intro st r hinit hv
  obtain ⟨j, i, mth, ps⟩ := r
  refine ⟨?_, ?_, ?_⟩
  · intro hmem
    have hvm := validateMethodName_gated mth hmem
    have hroute := routeMethod_gated
      { st with active := insertActive st.active i } j i mth ps hmem hinit
    unfold handleRequest
    try simp only at hv hvm ⊢
    rw [hv, hvm]
    simp only [hroute]
    rfl
  · intro h
    try simp only at h
    subst h
    unfold handleRequest
    try simp only at hv
    rw [hv]
    rfl
  · intro params h hp hsome
    try simp only at h hp
    subst h
    subst hp
    obtain ⟨ir, hir⟩ := Option.isSome_iff_exists.mp hsome
    unfold handleRequest
    try simp only at hv
    rw [hv]
    have hroute : routeMethod { st with active := insertActive st.active i }
        { jsonrpc := j, id := i, method := "initialize", params := some params } =
        .ok (initializeResultJson { st with active := insertActive st.active i },
             { st with active := insertActive st.active i, initialized := true }) := by
      have hstep : routeMethod { st with active := insertActive st.active i }
          { jsonrpc := j, id := i, method := "initialize", params := some params } =
          handleInitialize { st with active := insertActive st.active i }
          { jsonrpc := j, id := i, method := "initialize", params := some params } := rfl
      rw [hstep]
      simp only [handleInitialize]
      rw [hir]
    simp only [hroute]
    rfl

/-- Witness for C2: a fresh server answers `tools/list` with the
uninitialized error, answers `ping` successfully, and completes the
handshake, raising the flag. -/
theorem claim_C2_initialization_gate_witness :
    (handleRequest emptyServerState
        { jsonrpc := "2.0", id := .num 2, method := "tools/list", params := none } =
      .ok (JsonRpcResponse.mkError (.num 2)
             { code := -32603, message := "Protocol error: Server not initialized",
               data := none },
           { emptyServerState with
               active := removeActive (insertActive emptyServerState.active (.num 2)) (.num 2) })) ∧
    (handleRequest emptyServerState
        { jsonrpc := "2.0", id := .num 3, method := "ping", params := none } =
      .ok (JsonRpcResponse.success (.num 3) (.obj []),
           { emptyServerState with
               active := removeActive (insertActive emptyServerState.active (.num 3)) (.num 3) })) ∧
    (handleRequest emptyServerState
        { jsonrpc := "2.0", id := .num 1, method := "initialize",
          params := some initParamsFixture } =
      .ok (JsonRpcResponse.success (.num 1)
             (initializeResultJson
               { emptyServerState with
                   active := insertActive emptyServerState.active (.num 1) }),
           { emptyServerState with
               active := removeActive (insertActive emptyServerState.active (.num 1)) (.num 1),
               initialized := true })) :=
  ⟨(claim_C2_initialization_gate emptyServerState
      { jsonrpc := "2.0", id := .num 2, method := "tools/list", params := none }
      rfl rfl).1 (by decide),
   (claim_C2_initialization_gate emptyServerState
      { jsonrpc := "2.0", id := .num 3, method := "ping", params := none }
      rfl rfl).2.1 rfl,
   (claim_C2_initialization_gate emptyServerState
      { jsonrpc := "2.0", id := .num 1, method := "initialize",
        params := some initParamsFixture }
      rfl rfl).2.2 initParamsFixture rfl rfl rfl⟩

/-- C1 counterexample: a request that is valid in the claim's sense
(`jsonrpc: "2.0"`, non-empty method, scalar id) whose method fails
method-name validation makes `handle_message` return the error itself — no
response is produced for it. -/
theorem claim_C1_counterexample :
    validateRequest { jsonrpc := "2.0", id := .num 1, method := "bogus", params := none } =
      .ok () ∧
    handleMessage 1 emptyServerState
      (.request { jsonrpc := "2.0", id := .num 1, method := "bogus", params := none }) =
      .error (.methodNotFound "Method 'bogus' not found") :=
  ⟨rfl, rfl⟩

/-- C1 amended: for every request passing both request validation and
method-name validation, `handle_message` returns exactly one response
carrying the request's id — whatever any route or manager does, success or
failure, is folded into that response — and a notification never produces a
response. -/
theorem claim_C1_dispatch_shape :
    (∀ (fuel : Nat) (st : ServerState) (r : JsonRpcRequest),
      validateRequest r = .ok () → validateMethodName r.method = .ok () →
      ∃ resp st', handleMessage fuel st (.request r) = .ok (some (.response resp), st') ∧
        resp.id = r.id) ∧
    (∀ (fuel : Nat) (st : ServerState) (n : JsonRpcNotification)
       (out : Option AnyJsonRpcMessage) (st' : ServerState),
      handleMessage fuel st (.notification n) = .ok (out, st') → out = none) := by
  constructor
  · intro fuel st r hv hm
    have hmsg : handleMessage fuel st (.request r) =
        (match handleRequest st r with
         | .error e => .error e
         | .ok (resp, st') => .ok (some (.response resp), st')) := by
      cases fuel <;> rfl
    cases hroute : routeMethod { st with active := insertActive st.active r.id } r with
    | error e =>
      have hreq : handleRequest st r =
          .ok (JsonRpcResponse.mkError r.id e.toJsonRpcError,
               { st with active := removeActive (insertActive st.active r.id) r.id }) := by
        unfold handleRequest
        rw [hv, hm]
        simp only [hroute]
      exact ⟨JsonRpcResponse.mkError r.id e.toJsonRpcError,
             { st with active := removeActive (insertActive st.active r.id) r.id },
             by rw [hmsg, hreq], rfl⟩
    | ok p =>
      obtain ⟨v, st2⟩ := p
      have hreq : handleRequest st r =
          .ok (JsonRpcResponse.success r.id v,
               { st2 with active := removeActive st2.active r.id }) := by
        unfold handleRequest
        rw [hv, hm]
        simp only [hroute]
      exact ⟨JsonRpcResponse.success r.id v,
             { st2 with active := removeActive st2.active r.id },
             by rw [hmsg, hreq], rfl⟩
  · intro fuel st n out st' h
    have hmsg : handleMessage fuel st (.notification n) =
        (match handleNotification st n with
         | .error e => .error e
         | .ok s => .ok (none, s)) := by
      cases fuel <;> rfl
    rw [hmsg] at h
    cases hn : handleNotification st n with
    | error e =>
      rw [hn] at h
      simp at h
    | ok s =>
      rw [hn] at h
      simp only [Except.ok.injEq, Prod.mk.injEq] at h
      exact h.1.symm

/-- Witness for C1: the response produced for a concrete `ping` request, and
a concrete notification producing no response. -/
theorem claim_C1_dispatch_shape_witness :
    (∃ resp st', handleMessage 0 emptyServerState
        (.request { jsonrpc := "2.0", id := .num 7, method := "ping", params := none }) =
        .ok (some (.response resp), st') ∧ resp.id = .num 7) ∧
    ((none : Option AnyJsonRpcMessage) = none) :=
  ⟨claim_C1_dispatch_shape.1 0 emptyServerState
      { jsonrpc := "2.0", id := .num 7, method := "ping", params := none } rfl rfl,
   claim_C1_dispatch_shape.2 0 emptyServerState
      { jsonrpc := "2.0", method := "notifications/progress", params := none }
      none emptyServerState rfl⟩

end Mcp
